import Mathlib

/-!
Verification of the surf-foil game's wave/physics core against its
natural-language specification.

The development shallowly embeds, over `ℝ`:
  * `WavePhysicsBridge` (CPU-side Gerstner wave field: `getDepth`,
    `gerstnerDisplace`, `getWaveHeightAt`, `getWaveSlopeAt`),
  * the vertex shader `gerstnerWaves` of `WaveSurface.tsx` (namespace
    `Shader`, with the shader's circle-constant literal abstracted so the
    two sides can be compared),
  * the per-frame rider integrator of `Player` (`tick`), and
  * a small JS-number model (`JsNum`) for the NaN guard in speed
    integration, where IEEE special values are observable.

JavaScript `Math.min/max/sqrt/sin/cos`, `THREE.MathUtils.lerp/clamp` are
translated to their real-number counterparts; numeric literals are kept
verbatim.
-/

noncomputable section

open Real

attribute [local instance] Classical.propDecidable

/-- A 3-component vector, standing in for `THREE.Vector3` / GLSL `vec3`. -/
structure Vec3 where
  x : ℝ
  y : ℝ
  z : ℝ

/-- One Gerstner wave component (interface `WaveDef` in the bridge). -/
structure WaveDef where
  dirX : ℝ
  dirZ : ℝ
  steepness : ℝ
  wavelength : ℝ
  amplitude : ℝ
  speed : ℝ

/-- The `WAVES` array of WavePhysicsBridge: main swell, secondary swell, cross chop. -/
def WAVES : Fin 3 → WaveDef :=
  ![⟨0.0, 1.0, 0.12, 25.0, 1.2, 4.0⟩,
    ⟨0.15, 0.99, 0.08, 15.0, 0.4, 3.5⟩,
    ⟨-0.2, 0.98, 0.06, 8.0, 0.15, 5.0⟩]

/-- `SHORE_ANGLE` constant of the bridge. -/
def SHORE_ANGLE : ℝ := 0.42

/-- `DEPTH_DEEP` constant of the bridge. -/
def DEPTH_DEEP : ℝ := 10.0

/-- `DEPTH_SHALLOW` constant of the bridge. -/
def DEPTH_SHALLOW : ℝ := 1.5

/-- `SHORE_Z_CENTER` constant of the bridge. -/
def SHORE_Z_CENTER : ℝ := 30.0

/-- `DEPTH_GRADIENT` constant of the bridge. -/
def DEPTH_GRADIENT : ℝ := 0.12

/-- `getDepth` of WavePhysicsBridge: diagonal beach depth in world coordinates.
`Math.max(DEPTH_SHALLOW, Math.min(DEPTH_DEEP, rawDepth))` becomes `max`/`min` on `ℝ`. -/
def getDepth (x z : ℝ) : ℝ :=
  let effectiveZ := z - x * SHORE_ANGLE
  let rawDepth := DEPTH_DEEP - (effectiveZ - SHORE_Z_CENTER) * DEPTH_GRADIENT
  max DEPTH_SHALLOW (min DEPTH_DEEP rawDepth)

/-- The bridge's GLSL-compatible `smoothstep`:
`t = Math.max(0, Math.min((x-e0)/(e1-e0), 1)); t*t*(3-2*t)`. -/
def smoothstep (edge0 edge1 x : ℝ) : ℝ :=
  let t := max 0 (min ((x - edge0) / (edge1 - edge0)) 1.0)
  t * t * (3 - 2 * t)

/-- Per-wave shoaling scale in `gerstnerDisplace`: the factor `effectiveShoal`
that multiplies both amplitude and steepness (wave 0 full weight, others 30%). -/
def shoalScale (i : Fin 3) (x z : ℝ) : ℝ :=
  let depth := getDepth x z
  let depthFrac := max (depth / DEPTH_DEEP) 0.05
  let shoalFactor := 1.0 / Real.sqrt depthFrac
  let shoalWeight := if i = 0 then (1.0 : ℝ) else 0.3
  1.0 + (shoalFactor - 1.0) * shoalWeight

/-- The shoaled amplitude `a` used for wave `i` in `gerstnerDisplace`. -/
def waveAmp (i : Fin 3) (x z : ℝ) : ℝ :=
  (WAVES i).amplitude * shoalScale i x z

/-- The shoaled steepness for wave `i`, after the safety ceiling
`steepness = Math.min(steepness, 0.4)`. -/
def waveSteep (i : Fin 3) (x z : ℝ) : ℝ :=
  min ((WAVES i).steepness * shoalScale i x z) 0.4

/-- Wavenumber `k = 2π / wavelength` for wave `i`. -/
def waveK (i : Fin 3) : ℝ :=
  2 * Real.pi / (WAVES i).wavelength

/-- Standard Gerstner phase `f = k * (dir·pos - speed * time)` for wave `i`. -/
def wavePhase (i : Fin 3) (x z t : ℝ) : ℝ :=
  waveK i * ((WAVES i).dirX * x + (WAVES i).dirZ * z - (WAVES i).speed * t)

/-- The per-wave horizontal displacement factor
`q = Math.max(0, Math.min(steepness / (k * a * WAVE_COUNT), 0.5))`. -/
def waveQ (i : Fin 3) (x z : ℝ) : ℝ :=
  max 0 (min (waveSteep i x z / (waveK i * waveAmp i x z * 3)) 0.5)

/-- Accumulated x-coordinate after the wave loop of `gerstnerDisplace`
(before the breaking fold): `rx = x + Σ q·a·dirX·cos f`. -/
def preBreakX (x z t : ℝ) : ℝ :=
  x + ∑ i : Fin 3, waveQ i x z * waveAmp i x z * (WAVES i).dirX * Real.cos (wavePhase i x z t)

/-- Accumulated y-coordinate after the wave loop of `gerstnerDisplace`
(before the breaking fold): `ry = Σ a·sin f`. -/
def preBreakY (x z t : ℝ) : ℝ :=
  ∑ i : Fin 3, waveAmp i x z * Real.sin (wavePhase i x z t)

/-- Accumulated z-coordinate after the wave loop of `gerstnerDisplace`
(before the breaking fold): `rz = z + Σ q·a·dirZ·cos f`. -/
def preBreakZ (x z t : ℝ) : ℝ :=
  z + ∑ i : Fin 3, waveQ i x z * waveAmp i x z * (WAVES i).dirZ * Real.cos (wavePhase i x z t)

/-- `breakStrength = smoothstep(5.0, 2.0, depth)` of `gerstnerDisplace`. -/
def breakStrength (x z : ℝ) : ℝ :=
  smoothstep 5.0 2.0 (getDepth x z)

/-- `breakAmount = crestFactor * crestFactor * breakStrength`, where
`crestFactor = smoothstep(0, 0.8, sin(f0))` is computed from wave 0's own phase. -/
def breakAmount (x z t : ℝ) : ℝ :=
  let crestFactor := smoothstep 0.0 0.8 (Real.sin (wavePhase 0 x z t))
  crestFactor * crestFactor * breakStrength x z

/-- `gerstnerDisplace` of WavePhysicsBridge: displaced surface position at
world `(x, z)` and time `t` — three Gerstner components with weighted
shoaling, then the breaking/tube fold when `breakStrength > 0.001`. -/
def gerstnerDisplace (x z t : ℝ) : Vec3 :=
  let rx := preBreakX x z t
  let ry := preBreakY x z t
  let rz := preBreakZ x z t
  if 0.001 < breakStrength x z then
    let ba := breakAmount x z t
    let foldAngle := ba * 3.0
    let aboveWater := max ry 0
    let belowWater := min ry 0
    ⟨rx,
     belowWater + aboveWater * Real.cos foldAngle,
     rz + aboveWater * Real.sin foldAngle + ba * ba * aboveWater * 1.8⟩
  else
    ⟨rx, ry, rz⟩

/-- `getWaveHeightAt` of WavePhysicsBridge. -/
def getWaveHeightAt (x z t : ℝ) : ℝ :=
  (gerstnerDisplace x z t).y

/-- The finite-difference step `_eps = 0.2` of WavePhysicsBridge. -/
def bridgeEps : ℝ := 0.2

/-- `getWaveSlopeAt` of WavePhysicsBridge: central finite differences of the
height field, returned as `(slopeX, slopeZ)`. -/
def getWaveSlopeAt (x z t : ℝ) : ℝ × ℝ :=
  ((getWaveHeightAt (x + bridgeEps) z t - getWaveHeightAt (x - bridgeEps) z t) / (2 * bridgeEps),
   (getWaveHeightAt x (z + bridgeEps) t - getWaveHeightAt x (z - bridgeEps) t) / (2 * bridgeEps))

/-- C4: depth is the shore-angle-rotated linear profile clamped into
`[DEPTH_SHALLOW, DEPTH_DEEP] = [1.5, 10]`, hence always within those bounds. -/
theorem getDepth_bounds (x z : ℝ) :
    DEPTH_SHALLOW ≤ getDepth x z ∧ getDepth x z ≤ DEPTH_DEEP ∧
    (1.5 : ℝ) ≤ getDepth x z ∧ getDepth x z ≤ 10 ∧
    getDepth x z
      = max DEPTH_SHALLOW (min DEPTH_DEEP
          (DEPTH_DEEP - ((z - x * SHORE_ANGLE) - SHORE_Z_CENTER) * DEPTH_GRADIENT)) := by
  have h1 : DEPTH_SHALLOW ≤ getDepth x z := le_max_left _ _
  have h2 : getDepth x z ≤ DEPTH_DEEP := by
    have : min DEPTH_DEEP (DEPTH_DEEP - ((z - x * SHORE_ANGLE) - SHORE_Z_CENTER) * DEPTH_GRADIENT)
        ≤ DEPTH_DEEP := min_le_left _ _
    have hsd : DEPTH_SHALLOW ≤ DEPTH_DEEP := by norm_num [DEPTH_SHALLOW, DEPTH_DEEP]
    exact max_le hsd this
  refine ⟨h1, h2, ?_, ?_, rfl⟩
  · simpa [DEPTH_SHALLOW] using h1
  · have h2' := h2
    rw [DEPTH_DEEP] at h2'
    linarith

/-- Game state of the App: `'start' | 'playing' | 'gameover'`. -/
inductive GameState where
  | start : GameState
  | playing : GameState
  | gameover : GameState
deriving DecidableEq

/-- Crash verdict of a tick: no crash, touchdown, or breach. -/
inductive Verdict where
  | none : Verdict
  | touchdown : Verdict
  | breached : Verdict
deriving DecidableEq

/-- The physics `stateRef` of `Player` (crash-relevant fields). -/
structure RiderState where
  pitch : ℝ
  roll : ℝ
  yaw : ℝ
  cameraYaw : ℝ
  height : ℝ
  vY : ℝ
  speed : ℝ
  prevPitch : ℝ
  prevRoll : ℝ

/-- Input intent for one tick: which control keys are held
(`W/Up`, `S/Down`, `A/Left`, `D/Right`, `Shift`). -/
structure Intent where
  up : Bool
  down : Bool
  left : Bool
  right : Bool
  snap : Bool

/-- Whole-system state crossing tick boundaries: game phase, rider physics
state, and the player group's world position. -/
structure Sys where
  game : GameState
  rider : RiderState
  pos : Vec3

/-- `THREE.MathUtils.lerp(x, y, t) = (1 - t) * x + t * y`. -/
def lerp (x y t : ℝ) : ℝ := (1 - t) * x + t * y

/-- `THREE.MathUtils.clamp(value, min, max) = Math.max(min, Math.min(max, value))`. -/
def clampR (value lo hi : ℝ) : ℝ := max lo (min hi value)

/-- `GRAVITY` constant of the App. -/
def GRAVITY : ℝ := 9.8

/-- `START_YAW = -π/2` constant of the App. -/
def START_YAW : ℝ := -(Real.pi / 2)

/-- The ground-effect assist of the vertical physics step:
`if (h < 0.3) g = (0.3 - h) * 15; if (h > 1.0) g = -(h - 1.0) * 10` —
the second `if` overwrites the first when it fires. -/
def groundEffect (h : ℝ) : ℝ :=
  let g1 := if h < 0.3 then (0.3 - h) * 15.0 else 0
  if 1.0 < h then -((h - 1.0) * 10.0) else g1

/-- Slope magnitude `Math.sqrt(slopeX² + slopeZ²)` from the speed step. -/
def slopeMagOf (sx sz : ℝ) : ℝ := Real.sqrt (sx * sx + sz * sz)

/-- Projection of the slope onto the rider's forward direction
`(-sin yaw, -cos yaw)`: `slopeInDirection = slopeX·forwardX + slopeZ·forwardZ`. -/
def slopeInDirection (sx sz yaw : ℝ) : ℝ :=
  sx * (-Real.sin yaw) + sz * (-Real.cos yaw)

/-- `uphillRatio = slopeMag > 0.001 ? Math.max(0, slopeInDirection / slopeMag) : 0`. -/
def uphillPart (sx sz yaw : ℝ) : ℝ :=
  if 0.001 < slopeMagOf sx sz then max 0 (slopeInDirection sx sz yaw / slopeMagOf sx sz) else 0

/-- `foilCatchThrust = slopeMag * 1.5 * (1.0 - 0.5 * uphillRatio)`. -/
def foilCatchThrust (sx sz yaw : ℝ) : ℝ :=
  slopeMagOf sx sz * 1.5 * (1.0 - 0.5 * uphillPart sx sz yaw)

/-- The crash classification of step 4 of the frame loop:
`height ≤ -0.05` → touchdown, else `height ≥ 1.3` → breached, else none. -/
def crashCheck (h : ℝ) : Verdict :=
  if h ≤ -0.05 then Verdict.touchdown
  else if 1.3 ≤ h then Verdict.breached
  else Verdict.none

/-- The crash reason string set alongside each verdict. -/
def crashReasonOf : Verdict → String
  | Verdict.touchdown => "TOUCHDOWN! Board dug into the water."
  | Verdict.breached => "BREACHED! Foil wing came out of the water."
  | Verdict.none => ""

/-- The rider state installed on session start / respawn
(the `useEffect` reset when `gameState` becomes `'playing'`). -/
def initRider : RiderState :=
  { pitch := 0, roll := 0, yaw := START_YAW, cameraYaw := START_YAW,
    height := 0.4, vY := 0, speed := 12, prevPitch := 0, prevRoll := 0 }

/-- `const dt = Math.min(delta, 0.1)`: the capped timestep of a tick. -/
def dtOf (delta : ℝ) : ℝ := min delta 0.1

/-- Target roll from the held keys: right (`-0.55`) wins over left (`0.55`),
default `0`. -/
def targetRollOf (inp : Intent) : ℝ :=
  if inp.right then -0.55 else if inp.left then 0.55 else 0

/-- Target pitch from the held keys (down `0.3` wins over up `-0.2`, neutral
`0.05`), overridden to `0.25` when snapping with a nonzero roll target. -/
def targetPitchOf (inp : Intent) : ℝ :=
  let tp0 : ℝ := if inp.down then 0.3 else if inp.up then -0.2 else 0.05
  if inp.snap ∧ 0 < |targetRollOf inp| then 0.25 else tp0

/-- `s.pitch = lerp(s.pitch, targetPitch, dt * 5.0)`. -/
def pitchAfter (delta : ℝ) (inp : Intent) (r : RiderState) : ℝ :=
  lerp r.pitch (targetPitchOf inp) (dtOf delta * 5.0)

/-- `s.roll = lerp(s.roll, targetRoll, dt * 6.0)`. -/
def rollAfter (delta : ℝ) (inp : Intent) (r : RiderState) : ℝ :=
  lerp r.roll (targetRollOf inp) (dtOf delta * 6.0)

/-- `pitchRate = |s.pitch - s.prevPitch| / dt` (prevPitch holds the pre-update pitch). -/
def pitchRateOf (delta : ℝ) (inp : Intent) (r : RiderState) : ℝ :=
  |pitchAfter delta inp r - r.pitch| / dtOf delta

/-- `rollRate = |s.roll - s.prevRoll| / dt`. -/
def rollRateOf (delta : ℝ) (inp : Intent) (r : RiderState) : ℝ :=
  |rollAfter delta inp r - r.roll| / dtOf delta

/-- Speed after integration but before the clamp:
`s.speed + (waveSlopeThrust + foilCatchThrust + pumpThrust - drag) * dt`. -/
def speedRaw (delta t : ℝ) (inp : Intent) (r : RiderState) (p : Vec3) : ℝ :=
  let slope := getWaveSlopeAt p.x p.z t
  let waveSlopeThrust := -(slopeInDirection slope.1 slope.2 r.yaw) * GRAVITY * 0.35
  let fct := foilCatchThrust slope.1 slope.2 r.yaw
  let pumpThrust := pitchRateOf delta inp r * 3.5 + rollRateOf delta inp r * 0.3
  let drag0 := r.speed * 0.08 + max 0 (pitchAfter delta inp r) * r.speed * 1.2 +
      |rollAfter delta inp r| * r.speed * 0.2
  let drag := if inp.snap ∧ 0.1 < |rollAfter delta inp r| then drag0 + r.speed * 2.5 else drag0
  r.speed + (waveSlopeThrust + fct + pumpThrust - drag) * dtOf delta

/-- Speed at the end of the tick: `THREE.MathUtils.clamp(speed, 1.0, 25.0)`
applied right after integration. -/
def speedAfter (delta t : ℝ) (inp : Intent) (r : RiderState) (p : Vec3) : ℝ :=
  clampR (speedRaw delta t inp r p) 1.0 25.0

/-- Vertical velocity at the end of the tick:
`(s.vY + (totalLift - GRAVITY) * dt) * 0.85` with
`totalLift = baseLift + pitchLift + groundEffect + waveLift`. -/
def vYAfter (delta t : ℝ) (inp : Intent) (r : RiderState) (p : Vec3) : ℝ :=
  let speed' := speedAfter delta t inp r p
  let baseLift := speed' / 10.0 * GRAVITY
  let pitchLift := pitchAfter delta inp r * speed' * 3.0
  let slope := getWaveSlopeAt p.x p.z t
  let waveLift := slopeMagOf slope.1 slope.2 * GRAVITY * 0.2
  let totalLift := baseLift + pitchLift + groundEffect r.height + waveLift
  (r.vY + (totalLift - GRAVITY) * dtOf delta) * 0.85

/-- Height at the end of the mutation phase: `s.height + s.vY * dt`. -/
def heightAfter (delta t : ℝ) (inp : Intent) (r : RiderState) (p : Vec3) : ℝ :=
  r.height + vYAfter delta t inp r p * dtOf delta

/-- The rider state after the mutation phase of a playing tick (stages 1–3 of
the frame loop), before the crash check: yaw and cameraYaw untouched. -/
def mutatedRider (delta t : ℝ) (inp : Intent) (r : RiderState) (p : Vec3) : RiderState :=
  { r with
    pitch := pitchAfter delta inp r, roll := rollAfter delta inp r,
    prevPitch := r.pitch, prevRoll := r.roll,
    speed := speedAfter delta t inp r p, vY := vYAfter delta t inp r p,
    height := heightAfter delta t inp r p }

/-- Yaw after the turning step (only reached when no crash):
`s.yaw + s.roll * dt * 5.5 * snapMultiplier * speedFactor`. -/
def yawAfter (delta t : ℝ) (inp : Intent) (r : RiderState) (p : Vec3) : ℝ :=
  let snapMult : ℝ := if inp.snap then 2.5 else 1.0
  let speedFactor : ℝ :=
    if inp.snap then 1.0 else 10.0 / max (speedAfter delta t inp r p) 10.0
  r.yaw + rollAfter delta inp r * dtOf delta * 5.5 * snapMult * speedFactor

/-- Position after the movement step (only reached when no crash): advance
along the yaw'-forward direction by `speed * dt`, then set y to
`waveHeight + height`. -/
def posAfter (delta t : ℝ) (inp : Intent) (r : RiderState) (p : Vec3) : Vec3 :=
  let yaw' := yawAfter delta t inp r p
  let px := p.x + (-Real.sin yaw') * (speedAfter delta t inp r p * dtOf delta)
  let pz := p.z + (-Real.cos yaw') * (speedAfter delta t inp r p * dtOf delta)
  ⟨px, getWaveHeightAt px pz t + heightAfter delta t inp r p, pz⟩

/-- One `useFrame` callback of `Player`, with `delta` the raw frame delta and
`t` the elapsed clock time. When the game state is not `'playing'` the
callback returns without touching the physics state. Otherwise it runs the
mutation phase, the crash check on the updated height, and — only when no
crash — the yaw, position and pose updates; on a crash it switches the game
state to `'gameover'` and returns early. -/
def tick (delta t : ℝ) (inp : Intent) (sys : Sys) : Sys × Verdict :=
  match sys.game with
  | GameState.playing =>
    let r := sys.rider
    let p := sys.pos
    let v := crashCheck (heightAfter delta t inp r p)
    if v = Verdict.none then
      (⟨GameState.playing,
        { mutatedRider delta t inp r p with yaw := yawAfter delta t inp r p },
        posAfter delta t inp r p⟩, Verdict.none)
    else
      (⟨GameState.gameover, mutatedRider delta t inp r p, p⟩, v)
  | _ => (sys, Verdict.none)

lemma clampR_bounds (v : ℝ) : (1.0 : ℝ) ≤ clampR v 1.0 25.0 ∧ clampR v 1.0 25.0 ≤ 25.0 := by
  refine ⟨le_max_left _ _, max_le (by norm_num) (min_le_left _ _)⟩

/-- C1: on a playing tick the crash verdict is exactly the classification of
the updated height — `h ≤ -0.05` touchdown (water-contact reason), else
`h ≥ 1.3` breached (foil-out reason), else none; in particular heights
`-0.06` and `1.35` give touchdown resp. breached on that same tick. -/
theorem crash_check_classifies_updated_height :
    (∀ h : ℝ,
      (h ≤ -0.05 → crashCheck h = Verdict.touchdown) ∧
      (¬ h ≤ -0.05 → 1.3 ≤ h → crashCheck h = Verdict.breached) ∧
      (¬ h ≤ -0.05 → ¬ 1.3 ≤ h → crashCheck h = Verdict.none)) ∧
    crashCheck (-0.06) = Verdict.touchdown ∧
    crashCheck 1.35 = Verdict.breached ∧
    crashReasonOf Verdict.touchdown = "TOUCHDOWN! Board dug into the water." ∧
    crashReasonOf Verdict.breached = "BREACHED! Foil wing came out of the water." ∧
    ∀ delta t inp sys, sys.game = GameState.playing →
      (tick delta t inp sys).2 = crashCheck ((tick delta t inp sys).1.rider.height) := by
  refine ⟨?_, by norm_num [crashCheck], by norm_num [crashCheck], rfl, rfl, ?_⟩
  · intro h
    refine ⟨fun hlo => by simp [crashCheck, hlo], fun hlo hhi => ?_, fun hlo hhi => ?_⟩
    · simp [crashCheck, hlo, hhi]
    · simp [crashCheck, hlo, hhi]
  · rintro delta t inp ⟨g, r, p⟩ hg
    cases g with
    | playing =>
      simp only [tick]
      split_ifs with hv
      · simpa [mutatedRider] using hv.symm
      · simp [mutatedRider]
    | start => exact absurd hg (by simp)
    | gameover => exact absurd hg (by simp)

/-- Witness for C1: a concrete height below the touchdown threshold is
classified as touchdown, and a concrete playing tick's verdict agrees with
the classification of its own updated height. -/
theorem crash_check_classifies_updated_height_witness :
    crashCheck (-1 : ℝ) = Verdict.touchdown ∧
    (tick 0.016 0 ⟨false, false, false, false, false⟩
        ⟨GameState.playing, initRider, ⟨5, 0, 20⟩⟩).2
      = crashCheck ((tick 0.016 0 ⟨false, false, false, false, false⟩
        ⟨GameState.playing, initRider, ⟨5, 0, 20⟩⟩).1.rider.height) := by
  obtain ⟨htri, -, -, -, -, hlink⟩ := crash_check_classifies_updated_height
  exact ⟨(htri (-1)).1 (by norm_num), hlink 0.016 0 _ _ rfl⟩

/-- C2: the initial/reset rider speed is 12 ∈ [1, 25], and every tick leaves
the speed in [1, 25]: a playing tick ends with the clamped integrated speed,
and a non-playing tick leaves the state untouched. -/
theorem speed_clamp_invariant :
    initRider.speed = 12 ∧ (1.0 : ℝ) ≤ initRider.speed ∧ initRider.speed ≤ 25.0 ∧
    ∀ delta t inp sys, (1.0 : ℝ) ≤ sys.rider.speed → sys.rider.speed ≤ 25.0 →
      ((1.0 : ℝ) ≤ (tick delta t inp sys).1.rider.speed ∧
        (tick delta t inp sys).1.rider.speed ≤ 25.0) ∧
      (sys.game = GameState.playing →
        (tick delta t inp sys).1.rider.speed
          = clampR (speedRaw delta t inp sys.rider sys.pos) 1.0 25.0) := by
  refine ⟨rfl, by norm_num [initRider], by norm_num [initRider], ?_⟩
  rintro delta t inp ⟨g, r, p⟩ hlo hhi
  cases g with
  | playing =>
    have hsp : (tick delta t inp ⟨GameState.playing, r, p⟩).1.rider.speed
        = clampR (speedRaw delta t inp r p) 1.0 25.0 := by
      simp only [tick]
      split_ifs <;> simp [mutatedRider, speedAfter]
    refine ⟨?_, fun _ => hsp⟩
    rw [hsp]
    exact clampR_bounds _
  | start => exact ⟨⟨hlo, hhi⟩, by simp [tick]⟩
  | gameover => exact ⟨⟨hlo, hhi⟩, by simp [tick]⟩

/-- Witness for C2: starting from the reset state (speed 12) a concrete tick
keeps the speed within [1, 25]. -/
theorem speed_clamp_invariant_witness :
    (1.0 : ℝ) ≤ (tick 0.016 0 ⟨false, false, false, false, false⟩
        ⟨GameState.playing, initRider, ⟨5, 0, 20⟩⟩).1.rider.speed ∧
      (tick 0.016 0 ⟨false, false, false, false, false⟩
        ⟨GameState.playing, initRider, ⟨5, 0, 20⟩⟩).1.rider.speed ≤ 25.0 := by
  obtain ⟨-, -, -, h⟩ := speed_clamp_invariant
  exact (h 0.016 0 ⟨false, false, false, false, false⟩
    ⟨GameState.playing, initRider, ⟨5, 0, 20⟩⟩
    (by norm_num [initRider]) (by norm_num [initRider])).1

lemma groundEffect_eq (h : ℝ) :
    groundEffect h
      = if 1.0 < h then -((h - 1.0) * 10.0) else if h < 0.3 then (0.3 - h) * 15.0 else 0 := by
  unfold groundEffect
  by_cases h1 : 1.0 < h <;> by_cases h2 : h < 0.3 <;> simp [h1, h2]

/-- C10: the ground-effect assist is exactly zero on the closed height band
[0.3, 1.0], strictly positive exactly below 0.3, and strictly negative
exactly above 1.0. -/
theorem groundEffect_band :
    ∀ h : ℝ,
      ((0.3 ≤ h ∧ h ≤ 1.0) → groundEffect h = 0) ∧
      (0 < groundEffect h ↔ h < 0.3) ∧
      (groundEffect h < 0 ↔ 1.0 < h) := by
  intro h
  rw [groundEffect_eq]
  split_ifs with h1 h2
  · refine ⟨fun hb => absurd h1 (not_lt.2 hb.2), ?_, iff_of_true (by nlinarith) h1⟩
    constructor
    · intro hc; nlinarith
    · intro hc; linarith
  · refine ⟨fun hb => absurd h2 (not_lt.2 hb.1), iff_of_true (by nlinarith) h2,
      iff_of_false (by nlinarith) h1⟩
  · exact ⟨fun _ => rfl, iff_of_false (lt_irrefl (0 : ℝ)) h2,
      iff_of_false (lt_irrefl (0 : ℝ)) h1⟩

/-- Witness for C10: height 0.5 (inside the band) gives zero assist, 0.2
gives a strictly positive push, 1.2 a strictly negative pull. -/
theorem groundEffect_band_witness :
    groundEffect 0.5 = 0 ∧ 0 < groundEffect 0.2 ∧ groundEffect 1.2 < 0 := by
  refine ⟨(groundEffect_band 0.5).1 (by norm_num), ?_, ?_⟩
  · exact (groundEffect_band 0.2).2.1.mpr (by norm_num)
  · exact (groundEffect_band 1.2).2.2.mpr (by norm_num)

/-- C8: a tick in the `'gameover'` (or `'start'`) state returns the system
unchanged with no verdict, and a tick that produces a non-None verdict
switches to `'gameover'` while leaving yaw and world position untouched —
the crashing tick stops before the yaw/position/pose updates. -/
theorem crash_freezes_rider_state :
    ∀ delta t inp sys,
      (sys.game = GameState.gameover → tick delta t inp sys = (sys, Verdict.none)) ∧
      (sys.game = GameState.start → tick delta t inp sys = (sys, Verdict.none)) ∧
      ((tick delta t inp sys).2 ≠ Verdict.none →
        (tick delta t inp sys).1.game = GameState.gameover ∧
        (tick delta t inp sys).1.rider.yaw = sys.rider.yaw ∧
        (tick delta t inp sys).1.pos = sys.pos) := by
  rintro delta t inp ⟨g, r, p⟩
  cases g with
  | playing =>
    refine ⟨by simp, by simp, ?_⟩
    intro hne
    simp only [tick] at hne ⊢
    split_ifs at hne ⊢ with hv
    · exact absurd rfl hne
    · exact ⟨rfl, by simp [mutatedRider], rfl⟩
  | start => exact ⟨by simp, fun _ => by simp [tick], by simp [tick]⟩
  | gameover => exact ⟨fun _ => by simp [tick], by simp, by simp [tick]⟩

/-- Witness for C8: a concrete gameover tick returns the state unchanged, and
a concrete crashing tick (zero delta, rider height -1, so the verdict is
touchdown) keeps yaw and position and lands in `'gameover'`. -/
theorem crash_freezes_rider_state_witness :
    tick 0.016 0 ⟨false, false, false, false, false⟩
        ⟨GameState.gameover, initRider, ⟨0, 0, 0⟩⟩
      = (⟨GameState.gameover, initRider, ⟨0, 0, 0⟩⟩, Verdict.none) ∧
    (tick 0 0 ⟨false, false, false, false, false⟩
        ⟨GameState.playing, { initRider with height := -1 }, ⟨0, 0, 0⟩⟩).1.game
      = GameState.gameover ∧
    (tick 0 0 ⟨false, false, false, false, false⟩
        ⟨GameState.playing, { initRider with height := -1 }, ⟨0, 0, 0⟩⟩).1.rider.yaw
      = initRider.yaw ∧
    (tick 0 0 ⟨false, false, false, false, false⟩
        ⟨GameState.playing, { initRider with height := -1 }, ⟨0, 0, 0⟩⟩).1.pos
      = (⟨0, 0, 0⟩ : Vec3) := by
  have hh : heightAfter 0 0 ⟨false, false, false, false, false⟩
      { initRider with height := -1 } ⟨0, 0, 0⟩ = -1 := by
    have hdt : dtOf 0 = 0 := by norm_num [dtOf]
    simp [heightAfter, hdt]
  have hne : (tick 0 0 ⟨false, false, false, false, false⟩
      ⟨GameState.playing, { initRider with height := -1 }, ⟨0, 0, 0⟩⟩).2 ≠ Verdict.none := by
    have hcc : crashCheck (-1 : ℝ) = Verdict.touchdown := by norm_num [crashCheck]
    simp only [tick, hh, hcc]
    rw [if_neg (by simp)]
    simp
  obtain ⟨hgo, -, hcr⟩ := crash_freezes_rider_state 0 0
    ⟨false, false, false, false, false⟩
    ⟨GameState.playing, { initRider with height := -1 }, ⟨0, 0, 0⟩⟩
  obtain ⟨h1, h2, h3⟩ := hcr hne
  exact ⟨(crash_freezes_rider_state 0.016 0 ⟨false, false, false, false, false⟩
    ⟨GameState.gameover, initRider, ⟨0, 0, 0⟩⟩).1 rfl, h1, by simpa using h2, h3⟩

/-- C7: every per-wave horizontal displacement factor `q` — computed from the
shoaled steepness and amplitude and divided by `k·a·N` — is clamped into
[0, 0.5], so the displacement sums of `gerstnerDisplace` only ever use a `q`
of at most 0.5. -/
theorem waveQ_clamped :
    ∀ (i : Fin 3) (x z : ℝ),
      0 ≤ waveQ i x z ∧ waveQ i x z ≤ 0.5 ∧
      waveQ i x z = max 0 (min (waveSteep i x z / (waveK i * waveAmp i x z * 3)) 0.5) := by
  intro i x z
  refine ⟨le_max_left _ _, ?_, rfl⟩
  exact max_le (by norm_num) (min_le_right _ _)

/-- C5: whenever `breakStrength > 0.001`, the displaced point's y is
`min(y,0) + max(y,0)·cos(foldAngle)` with `foldAngle = breakAmount·3`, its z
gains `max(y,0)·sin(foldAngle)` plus the forward throw
`breakAmount²·max(y,0)·1.8`, and `breakAmount` is the squared
`smoothstep(0, 0.8, sin f₀)` of wave 0's own phase times `breakStrength`;
moreover `breakStrength` is 0 for depth ≥ 5 and 1 for depth ≤ 2. -/
theorem breaking_fold_formula :
    ∀ x z t : ℝ,
      (0.001 < breakStrength x z →
        (gerstnerDisplace x z t).y
          = min (preBreakY x z t) 0
            + max (preBreakY x z t) 0 * Real.cos (breakAmount x z t * 3.0) ∧
        (gerstnerDisplace x z t).z
          = preBreakZ x z t + max (preBreakY x z t) 0 * Real.sin (breakAmount x z t * 3.0)
            + breakAmount x z t * breakAmount x z t * max (preBreakY x z t) 0 * 1.8 ∧
        breakAmount x z t
          = smoothstep 0.0 0.8 (Real.sin (wavePhase 0 x z t))
            * smoothstep 0.0 0.8 (Real.sin (wavePhase 0 x z t)) * breakStrength x z) ∧
      (5.0 ≤ getDepth x z → breakStrength x z = 0) ∧
      (getDepth x z ≤ 2.0 → breakStrength x z = 1) := by
  intro x z t
  refine ⟨?_, ?_, ?_⟩
  · intro hbs
    simp only [gerstnerDisplace]
    rw [if_pos hbs]
    exact ⟨rfl, rfl, rfl⟩
  · intro hd
    unfold breakStrength smoothstep
    have hq : (getDepth x z - 5.0) / (2.0 - 5.0) ≤ 0 := by
      apply div_nonpos_of_nonneg_of_nonpos <;> linarith
    have h0 : max 0 (min ((getDepth x z - 5.0) / (2.0 - 5.0)) 1.0) = 0 := by
      apply max_eq_left
      exact le_trans (min_le_left _ _) hq
    rw [h0]
    ring
  · intro hd
    unfold breakStrength smoothstep
    have hq : (1.0 : ℝ) ≤ (getDepth x z - 5.0) / (2.0 - 5.0) := by
      rw [le_div_iff_of_neg (by norm_num : (2.0 : ℝ) - 5.0 < 0)]
      linarith
    have h1 : max 0 (min ((getDepth x z - 5.0) / (2.0 - 5.0)) 1.0) = 1.0 := by
      rw [min_eq_right hq]
      exact max_eq_right (by norm_num)
    rw [h1]
    ring

/-- Witness for C5: at (x,z) = (0,101) the depth clamps to 1.5 ≤ 2, so
`breakStrength = 1 > 0.001` and the fold equation holds there at t = 0. -/
theorem breaking_fold_formula_witness :
    breakStrength 0 101 = 1 ∧
    (gerstnerDisplace 0 101 0).y
      = min (preBreakY 0 101 0) 0
        + max (preBreakY 0 101 0) 0 * Real.cos (breakAmount 0 101 0 * 3.0) := by
  have hd : getDepth 0 101 ≤ 2.0 := by
    norm_num [getDepth, DEPTH_DEEP, DEPTH_SHALLOW, SHORE_ANGLE, SHORE_Z_CENTER, DEPTH_GRADIENT]
  have h1 := (breaking_fold_formula 0 101 0).2.2 hd
  have h2 := ((breaking_fold_formula 0 101 0).1 (by rw [h1]; norm_num)).1
  exact ⟨h1, h2⟩

lemma slopeInDirection_le_mag (sx sz yaw : ℝ) :
    slopeInDirection sx sz yaw ≤ slopeMagOf sx sz := by
  have hmagnn : 0 ≤ slopeMagOf sx sz := Real.sqrt_nonneg _
  have hmagsq : slopeMagOf sx sz ^ 2 = sx * sx + sz * sz := by
    rw [slopeMagOf, sq, Real.mul_self_sqrt (by nlinarith [sq_nonneg sx, sq_nonneg sz])]
  have hpyth := Real.sin_sq_add_cos_sq yaw
  have hsq : slopeInDirection sx sz yaw ^ 2 ≤ slopeMagOf sx sz ^ 2 := by
    rw [hmagsq, slopeInDirection]
    nlinarith [sq_nonneg (sx * Real.cos yaw - sz * Real.sin yaw)]
  nlinarith [hsq, hmagnn]

/-- C9 counterexample: at slope (0, 1/2000) — magnitude 1/2000, nonzero but
below the 0.001 engagement threshold — with yaw = π (moving directly
uphill), the code's foil-catch thrust does not apply the claimed
direction multiplier: the claim's formula would halve it. -/
theorem foil_catch_threshold_counterexample :
    0 < slopeMagOf 0 (1 / 2000) ∧
    foilCatchThrust 0 (1 / 2000) Real.pi
      ≠ slopeMagOf 0 (1 / 2000) * 1.5 *
        (1.0 - 0.5 * max 0 (slopeInDirection 0 (1 / 2000) Real.pi / slopeMagOf 0 (1 / 2000))) := by
  have hmag : slopeMagOf 0 (1 / 2000 : ℝ) = 1 / 2000 := by
    unfold slopeMagOf
    rw [show (0 : ℝ) * 0 + 1 / 2000 * (1 / 2000) = (1 / 2000) ^ 2 by ring]
    exact Real.sqrt_sq (by norm_num)
  have hsid : slopeInDirection 0 (1 / 2000 : ℝ) Real.pi = 1 / 2000 := by
    unfold slopeInDirection
    rw [Real.sin_pi, Real.cos_pi]
    ring
  constructor
  · rw [hmag]; norm_num
  · unfold foilCatchThrust uphillPart
    rw [hmag, hsid, if_neg (by norm_num)]
    norm_num

/-- C9 amended: for slope magnitudes above the 0.001 engagement threshold the
foil-catch thrust is `|slope|·1.5·(1 − 0.5·max(0, slopeInDirection/|slope|))`
— exactly `|slope|·1.5` when moving with or across the slope and exactly half
that when moving directly uphill — and the thrust is non-negative for every
slope and heading (also below the threshold, where the multiplier is 1). -/
theorem foil_catch_formula :
    ∀ sx sz yaw : ℝ,
      (0.001 < slopeMagOf sx sz →
        foilCatchThrust sx sz yaw
          = slopeMagOf sx sz * 1.5 *
            (1.0 - 0.5 * max 0 (slopeInDirection sx sz yaw / slopeMagOf sx sz)) ∧
        (slopeInDirection sx sz yaw ≤ 0 →
          foilCatchThrust sx sz yaw = slopeMagOf sx sz * 1.5) ∧
        (slopeInDirection sx sz yaw = slopeMagOf sx sz →
          foilCatchThrust sx sz yaw = slopeMagOf sx sz * 1.5 * 0.5)) ∧
      0 ≤ foilCatchThrust sx sz yaw := by
  intro sx sz yaw
  have hmagnn : 0 ≤ slopeMagOf sx sz := Real.sqrt_nonneg _
  constructor
  · intro hth
    have hmagpos : 0 < slopeMagOf sx sz := lt_trans (by norm_num) hth
    have hformula : foilCatchThrust sx sz yaw
        = slopeMagOf sx sz * 1.5 *
          (1.0 - 0.5 * max 0 (slopeInDirection sx sz yaw / slopeMagOf sx sz)) := by
      unfold foilCatchThrust uphillPart
      rw [if_pos hth]
    refine ⟨hformula, ?_, ?_⟩
    · intro hsid
      rw [hformula, max_eq_left (div_nonpos_of_nonpos_of_nonneg hsid hmagnn)]
      ring
    · intro hsid
      rw [hformula, hsid, div_self (ne_of_gt hmagpos)]
      norm_num
  · unfold foilCatchThrust uphillPart
    split_ifs with hth
    · have hle : slopeInDirection sx sz yaw / slopeMagOf sx sz ≤ 1 := by
        rw [div_le_one (lt_trans (by norm_num) hth)]
        exact slopeInDirection_le_mag sx sz yaw
      have hmax : max 0 (slopeInDirection sx sz yaw / slopeMagOf sx sz) ≤ 1 :=
        max_le (by norm_num) hle
      nlinarith
    · nlinarith

/-- Witness for C9 amended: slope (0,1) with yaw = π is directly uphill at
magnitude 1 > 0.001, so the thrust is halved to `1·1.5·0.5`, and it is
non-negative. -/
theorem foil_catch_formula_witness :
    foilCatchThrust 0 1 Real.pi = slopeMagOf 0 1 * 1.5 * 0.5 ∧
    0 ≤ foilCatchThrust 0 1 Real.pi := by
  have hmag : slopeMagOf 0 1 = 1 := by
    unfold slopeMagOf
    rw [show (0 : ℝ) * 0 + 1 * 1 = 1 by ring, Real.sqrt_one]
  have hsid : slopeInDirection 0 1 Real.pi = 1 := by
    unfold slopeInDirection
    rw [Real.sin_pi, Real.cos_pi]
    ring
  have h := foil_catch_formula 0 1 Real.pi
  exact ⟨(h.1 (by rw [hmag]; norm_num)).2.2 (by rw [hsid, hmag]), h.2⟩

/-- A JavaScript number as observed by the speed-integration guard: NaN,
+Infinity, -Infinity, or a finite value (modelled as a rational). -/
inductive JsNum where
  | nan : JsNum
  | posInf : JsNum
  | negInf : JsNum
  | num : ℚ → JsNum
deriving DecidableEq

/-- JavaScript `isNaN`: true only on NaN — ±Infinity are NOT NaN. -/
def jsIsNaN : JsNum → Bool
  | JsNum.nan => true
  | _ => false

/-- JavaScript `Math.min`: NaN-propagating, with IEEE infinities. -/
def jsMin : JsNum → JsNum → JsNum
  | JsNum.nan, _ => JsNum.nan
  | _, JsNum.nan => JsNum.nan
  | JsNum.negInf, _ => JsNum.negInf
  | _, JsNum.negInf => JsNum.negInf
  | JsNum.posInf, b => b
  | a, JsNum.posInf => a
  | JsNum.num a, JsNum.num b => JsNum.num (min a b)

/-- JavaScript `Math.max`: NaN-propagating, with IEEE infinities. -/
def jsMax : JsNum → JsNum → JsNum
  | JsNum.nan, _ => JsNum.nan
  | _, JsNum.nan => JsNum.nan
  | JsNum.posInf, _ => JsNum.posInf
  | _, JsNum.posInf => JsNum.posInf
  | JsNum.negInf, b => b
  | a, JsNum.negInf => a
  | JsNum.num a, JsNum.num b => JsNum.num (max a b)

/-- `THREE.MathUtils.clamp(value, min, max) = Math.max(min, Math.min(max, value))`
on JS numbers. -/
def threeClamp (value lo hi : JsNum) : JsNum :=
  jsMax lo (jsMin hi value)

/-- The guard `if (isNaN(s.speed)) s.speed = 0;` right after speed integration. -/
def speedGuard (v : JsNum) : JsNum :=
  if jsIsNaN v then JsNum.num 0 else v

/-- The two statements following speed integration: the NaN guard and then
`s.speed = THREE.MathUtils.clamp(s.speed, 1.0, 25.0)`. -/
def speedClampStep (v : JsNum) : JsNum :=
  threeClamp (speedGuard v) (JsNum.num 1) (JsNum.num 25)

/-- C6 counterexample: a newly computed speed of +Infinity is non-finite but
is NOT reset to 0 before the clamp — the guard tests `isNaN` only, so
+Infinity passes through it unchanged (the clamp then yields 25, not the 1
that a reset-to-0 would give). -/
theorem nan_guard_counterexample :
    speedGuard JsNum.posInf = JsNum.posInf ∧
    speedGuard JsNum.posInf ≠ JsNum.num 0 ∧
    speedClampStep JsNum.posInf = JsNum.num 25 ∧
    speedClampStep (speedGuard (JsNum.num 0)) ≠ speedClampStep JsNum.posInf := by
  refine ⟨rfl, by decide, by decide, by decide⟩

/-- C6 amended: only a NaN speed is reset to 0 before the clamp; ±Infinity
pass the guard unchanged but the subsequent clamp maps every input — NaN,
±Infinity or finite — to a finite value in [1, 25], so no non-finite speed
propagates past the integration point. -/
theorem nan_guard_amended :
    speedGuard JsNum.nan = JsNum.num 0 ∧
    speedClampStep JsNum.nan = JsNum.num 1 ∧
    speedClampStep JsNum.posInf = JsNum.num 25 ∧
    speedClampStep JsNum.negInf = JsNum.num 1 ∧
    ∀ v : JsNum, ∃ q : ℚ, speedClampStep v = JsNum.num q ∧ 1 ≤ q ∧ q ≤ 25 := by
  refine ⟨rfl, by decide, by decide, by decide, ?_⟩
  intro v
  cases v with
  | nan => exact ⟨1, by decide, by norm_num, by norm_num⟩
  | posInf => exact ⟨25, by decide, by norm_num, by norm_num⟩
  | negInf => exact ⟨1, by decide, by norm_num, by norm_num⟩
  | num q =>
    refine ⟨max 1 (min 25 q), rfl, le_max_left _ _, ?_⟩
    exact max_le (by norm_num) (min_le_left _ _)

namespace Shader

/-- GLSL `clamp(x, minVal, maxVal) = min(max(x, minVal), maxVal)`. -/
def clampG (x lo hi : ℝ) : ℝ := min (max x lo) hi

/-- GLSL `smoothstep(edge0, edge1, x)`. -/
def smoothstepG (edge0 edge1 x : ℝ) : ℝ :=
  let t := clampG ((x - edge0) / (edge1 - edge0)) 0.0 1.0
  t * t * (3.0 - 2.0 * t)

/-- Shader uniform `uWaveDirX` (default value). -/
def uWaveDirX : Fin 3 → ℝ := ![0.0, 0.15, -0.2]

/-- Shader uniform `uWaveDirZ` (default value). -/
def uWaveDirZ : Fin 3 → ℝ := ![1.0, 0.99, 0.98]

/-- Shader uniform `uWaveSteepness` (default value). -/
def uWaveSteepness : Fin 3 → ℝ := ![0.12, 0.08, 0.06]

/-- Shader uniform `uWaveLength` (default value). -/
def uWaveLength : Fin 3 → ℝ := ![25.0, 15.0, 8.0]

/-- Shader uniform `uWaveAmplitude` (default value). -/
def uWaveAmplitude : Fin 3 → ℝ := ![1.2, 0.4, 0.15]

/-- Shader uniform `uWaveSpeed` (default value). -/
def uWaveSpeed : Fin 3 → ℝ := ![4.0, 3.5, 5.0]

/-- Shader uniform `uDepthDeep` (default value). -/
def uDepthDeep : ℝ := 10.0

/-- Shader uniform `uDepthShallow` (default value). -/
def uDepthShallow : ℝ := 1.5

/-- Shader uniform `uShoreAngle` (default value). -/
def uShoreAngle : ℝ := 0.42

/-- Shader uniform `uShoreZCenter` (default value). -/
def uShoreZCenter : ℝ := 30.0

/-- Shader uniform `uDepthGradient` (default value). -/
def uDepthGradient : ℝ := 0.12

/-- Vertex-shader `getDepth(x, z)`: the same diagonal-beach profile, written
with GLSL `clamp`. -/
def getDepth (x z : ℝ) : ℝ :=
  let effectiveZ := z - x * uShoreAngle
  let rawDepth := uDepthDeep - (effectiveZ - uShoreZCenter) * uDepthGradient
  clampG rawDepth uDepthShallow uDepthDeep

/-- Wavenumber of the shader wave loop, `k = c / uWaveLength[i]`; the shader
source writes the literal `6.28318` where this abstraction has `c`. -/
def kOf (c : ℝ) (i : Fin 3) : ℝ := c / uWaveLength i

/-- Shader phase `f = k * (dirX·x + dirZ·z - speed·time)`. -/
def fOf (c : ℝ) (i : Fin 3) (px pz time : ℝ) : ℝ :=
  kOf c i * (uWaveDirX i * px + uWaveDirZ i * pz - uWaveSpeed i * time)

/-- Shader per-wave `effectiveShoal` (wave 0 full weight, others 0.3). -/
def effShoal (i : Fin 3) (px pz : ℝ) : ℝ :=
  let depth := getDepth px pz
  let depthFrac := max (depth / uDepthDeep) 0.05
  let shoalFactor := 1.0 / Real.sqrt depthFrac
  let shoalWeight := if i = 0 then (1.0 : ℝ) else 0.3
  1.0 + (shoalFactor - 1.0) * shoalWeight

/-- Shader per-wave shoaled amplitude. -/
def ampOf (i : Fin 3) (px pz : ℝ) : ℝ := uWaveAmplitude i * effShoal i px pz

/-- Shader per-wave shoaled steepness with the `min(steepness, 0.4)` ceiling. -/
def steepOf (i : Fin 3) (px pz : ℝ) : ℝ := min (uWaveSteepness i * effShoal i px pz) 0.4

/-- Shader per-wave `q = clamp(steepness / (k * a * float(3)), 0.0, 0.5)`. -/
def qOf (c : ℝ) (i : Fin 3) (px pz : ℝ) : ℝ :=
  clampG (steepOf i px pz / (kOf c i * ampOf i px pz * 3.0)) 0.0 0.5

/-- The vertex-shader function `gerstnerWaves(pos, time)` of WaveSurface.tsx,
with the circle-constant literal (`6.28318` in the GLSL source) abstracted as
`c`: three Gerstner components accumulated onto `pos`, then the same breaking
fold as the CPU bridge. -/
def gerstnerWavesC (c : ℝ) (px py pz time : ℝ) : Vec3 :=
  let rx := px + ∑ i : Fin 3,
      qOf c i px pz * ampOf i px pz * uWaveDirX i * Real.cos (fOf c i px pz time)
  let ry := py + ∑ i : Fin 3, ampOf i px pz * Real.sin (fOf c i px pz time)
  let rz := pz + ∑ i : Fin 3,
      qOf c i px pz * ampOf i px pz * uWaveDirZ i * Real.cos (fOf c i px pz time)
  let depth := getDepth px pz
  let bs := smoothstepG 5.0 2.0 depth
  if 0.001 < bs then
    let sinF0 := Real.sin (fOf c 0 px pz time)
    let crestFactor := smoothstepG 0.0 0.8 sinF0
    let ba := crestFactor * crestFactor * bs
    let foldAngle := ba * 3.0
    let aboveWater := max ry 0
    let belowWater := min ry 0
    ⟨rx,
     belowWater + aboveWater * Real.cos foldAngle,
     rz + aboveWater * Real.sin foldAngle + ba * ba * aboveWater * 1.8⟩
  else
    ⟨rx, ry, rz⟩

/-- The vertex-shader function as shipped: the GLSL source hard-codes the
circle constant as the literal `6.28318`. -/
def gerstnerWaves (px py pz time : ℝ) : Vec3 :=
  gerstnerWavesC 6.28318 px py pz time

end Shader

lemma clampG_eq (x lo hi : ℝ) (h : lo ≤ hi) : Shader.clampG x lo hi = max lo (min hi x) := by
  simp only [Shader.clampG, min_def, max_def]
  split_ifs <;> linarith

lemma smoothstepG_eq (edge0 edge1 v : ℝ) :
    Shader.smoothstepG edge0 edge1 v = smoothstep edge0 edge1 v := by
  unfold Shader.smoothstepG smoothstep
  rw [clampG_eq _ _ _ (by norm_num), min_comm]
  norm_num

lemma shader_getDepth_eq (x z : ℝ) : Shader.getDepth x z = getDepth x z := by
  unfold Shader.getDepth getDepth
  rw [clampG_eq _ _ _ (by norm_num [Shader.uDepthShallow, Shader.uDepthDeep])]
  simp [Shader.uDepthShallow, Shader.uDepthDeep, Shader.uShoreAngle, Shader.uShoreZCenter,
    Shader.uDepthGradient, DEPTH_SHALLOW, DEPTH_DEEP, SHORE_ANGLE, SHORE_Z_CENTER, DEPTH_GRADIENT]

lemma uDirX_eq (i : Fin 3) : Shader.uWaveDirX i = (WAVES i).dirX := by
  fin_cases i <;> rfl

lemma uDirZ_eq (i : Fin 3) : Shader.uWaveDirZ i = (WAVES i).dirZ := by
  fin_cases i <;> rfl

lemma uSteep_eq (i : Fin 3) : Shader.uWaveSteepness i = (WAVES i).steepness := by
  fin_cases i <;> rfl

lemma uLen_eq (i : Fin 3) : Shader.uWaveLength i = (WAVES i).wavelength := by
  fin_cases i <;> rfl

lemma uAmp_eq (i : Fin 3) : Shader.uWaveAmplitude i = (WAVES i).amplitude := by
  fin_cases i <;> rfl

lemma uSpeed_eq (i : Fin 3) : Shader.uWaveSpeed i = (WAVES i).speed := by
  fin_cases i <;> rfl

lemma effShoal_eq (i : Fin 3) (px pz : ℝ) : Shader.effShoal i px pz = shoalScale i px pz := by
  unfold Shader.effShoal shoalScale
  rw [shader_getDepth_eq]
  simp [Shader.uDepthDeep, DEPTH_DEEP]

lemma ampOf_eq (i : Fin 3) (px pz : ℝ) : Shader.ampOf i px pz = waveAmp i px pz := by
  unfold Shader.ampOf waveAmp
  rw [effShoal_eq, uAmp_eq]

lemma steepOf_eq (i : Fin 3) (px pz : ℝ) : Shader.steepOf i px pz = waveSteep i px pz := by
  unfold Shader.steepOf waveSteep
  rw [effShoal_eq, uSteep_eq]

lemma kOf_eq (i : Fin 3) : Shader.kOf (2 * Real.pi) i = waveK i := by
  unfold Shader.kOf waveK
  rw [uLen_eq]

lemma fOf_eq (i : Fin 3) (px pz time : ℝ) :
    Shader.fOf (2 * Real.pi) i px pz time = wavePhase i px pz time := by
  unfold Shader.fOf wavePhase
  rw [kOf_eq, uDirX_eq, uDirZ_eq, uSpeed_eq]

lemma qOf_eq (i : Fin 3) (px pz : ℝ) : Shader.qOf (2 * Real.pi) i px pz = waveQ i px pz := by
  unfold Shader.qOf waveQ
  rw [clampG_eq _ _ _ (by norm_num), kOf_eq, ampOf_eq, steepOf_eq, min_comm]
  norm_num

lemma gerstner_eq_shaderC (x z t : ℝ) :
    gerstnerDisplace x z t = Shader.gerstnerWavesC (2 * Real.pi) x 0 z t := by
  unfold gerstnerDisplace Shader.gerstnerWavesC
  simp only [qOf_eq, ampOf_eq, uDirX_eq, uDirZ_eq, fOf_eq, smoothstepG_eq, shader_getDepth_eq,
    preBreakX, preBreakY, preBreakZ, breakStrength, breakAmount, zero_add]

lemma shader_getDepth_origin : Shader.getDepth 0 0 = 10 := by
  unfold Shader.getDepth
  rw [clampG_eq _ _ _ (by norm_num [Shader.uDepthShallow, Shader.uDepthDeep])]
  norm_num [Shader.uDepthShallow, Shader.uDepthDeep, Shader.uShoreAngle, Shader.uShoreZCenter,
    Shader.uDepthGradient, min_def, max_def]

lemma shader_bs_origin : Shader.smoothstepG 5.0 2.0 (Shader.getDepth 0 0) = 0 := by
  rw [shader_getDepth_origin]
  unfold Shader.smoothstepG
  rw [clampG_eq _ _ _ (by norm_num)]
  norm_num [min_def, max_def]

lemma shader_effShoal_origin (i : Fin 3) : Shader.effShoal i 0 0 = 1 := by
  unfold Shader.effShoal
  rw [shader_getDepth_origin]
  norm_num [Shader.uDepthDeep, max_def, Real.sqrt_one]

lemma shader_f_origin (c : ℝ) (i : Fin 3) : Shader.fOf c i 0 0 0 = 0 := by
  unfold Shader.fOf
  ring

lemma shader_q1_origin (c : ℝ) (hc : 3 ≤ c) : Shader.qOf c 1 0 0 = 1 / c := by
  have hc0 : (0 : ℝ) < c := by linarith
  have hs : Shader.uWaveSteepness 1 = 0.08 := rfl
  have ha : Shader.uWaveAmplitude 1 = 0.4 := rfl
  have hl : Shader.uWaveLength 1 = 15.0 := rfl
  unfold Shader.qOf Shader.kOf Shader.steepOf Shader.ampOf
  rw [shader_effShoal_origin 1, hs, ha, hl, clampG_eq _ _ _ (by norm_num)]
  have hmin : min ((0.08 : ℝ) * 1) 0.4 = 0.08 := by norm_num [min_def]
  rw [hmin, show c / 15.0 * (0.4 * 1) * 3.0 = 0.08 * c by ring]
  have hv : (0.08 : ℝ) / (0.08 * c) = 1 / c := by
    field_simp
  have h0le : (0.0 : ℝ) ≤ 1 / c := by
    rw [show (0.0 : ℝ) = 0 by norm_num]
    positivity
  rw [hv, min_eq_right (by rw [div_le_iff hc0]; nlinarith), max_eq_right h0le]

lemma shader_q2_origin (c : ℝ) (hc : 3 ≤ c) : Shader.qOf c 2 0 0 = 16 / (15 * c) := by
  have hc0 : (0 : ℝ) < c := by linarith
  have hs : Shader.uWaveSteepness 2 = 0.06 := rfl
  have ha : Shader.uWaveAmplitude 2 = 0.15 := rfl
  have hl : Shader.uWaveLength 2 = 8.0 := rfl
  unfold Shader.qOf Shader.kOf Shader.steepOf Shader.ampOf
  rw [shader_effShoal_origin 2, hs, ha, hl, clampG_eq _ _ _ (by norm_num)]
  have hmin : min ((0.06 : ℝ) * 1) 0.4 = 0.06 := by norm_num [min_def]
  rw [hmin, show c / 8.0 * (0.15 * 1) * 3.0 = 0.05625 * c by ring]
  have hv : (0.06 : ℝ) / (0.05625 * c) = 16 / (15 * c) := by
    rw [div_eq_div_iff (ne_of_gt (by nlinarith : (0 : ℝ) < 0.05625 * c))
      (ne_of_gt (by nlinarith : (0 : ℝ) < 15 * c))]
    ring
  have h0le : (0.0 : ℝ) ≤ 16 / (15 * c) := by
    rw [show (0.0 : ℝ) = 0 by norm_num]
    apply div_nonneg (by norm_num)
    nlinarith
  rw [hv, min_eq_right (by rw [div_le_iff (by nlinarith : (0 : ℝ) < 15 * c)]; nlinarith),
    max_eq_right h0le]

lemma shaderC_origin_x (c : ℝ) (hc : 3 ≤ c) :
    (Shader.gerstnerWavesC c 0 0 0 0).x = 0.028 / c := by
  have hc0 : (0 : ℝ) < c := by linarith
  have ha1 : Shader.ampOf 1 0 0 = 0.4 := by
    unfold Shader.ampOf
    rw [shader_effShoal_origin 1, mul_one]
    rfl
  have ha2 : Shader.ampOf 2 0 0 = 0.15 := by
    unfold Shader.ampOf
    rw [shader_effShoal_origin 2, mul_one]
    rfl
  have hd0 : Shader.uWaveDirX 0 = 0.0 := rfl
  have hd1 : Shader.uWaveDirX 1 = 0.15 := rfl
  have hd2 : Shader.uWaveDirX 2 = -0.2 := rfl
  simp only [Shader.gerstnerWavesC]
  rw [if_neg (by rw [shader_bs_origin]; norm_num)]
  simp only [Fin.sum_univ_three, shader_f_origin, Real.cos_zero,
    shader_q1_origin c hc, shader_q2_origin c hc, ha1, ha2, hd0, hd1, hd2]
  field_simp
  ring

/-- C3 counterexample: at (x, z, t) = (0, 0, 0) the CPU physics displacement
and the shipped vertex shader output different x-coordinates —
`0.028/(2π)` versus `0.028/6.28318` — because the shader hard-codes `6.28318`
for `2π`; so the two formulas are not extensionally identical. -/
theorem shader_physics_displacement_differs :
    (gerstnerDisplace 0 0 0).x ≠ (Shader.gerstnerWaves 0 0 0 0).x := by
  have h1 : (gerstnerDisplace 0 0 0).x = 0.028 / (2 * Real.pi) := by
    rw [gerstner_eq_shaderC, shaderC_origin_x (2 * Real.pi) (by nlinarith [Real.pi_gt_three])]
  have h2 : (Shader.gerstnerWaves 0 0 0 0).x = 0.028 / 6.28318 := by
    unfold Shader.gerstnerWaves
    rw [shaderC_origin_x 6.28318 (by norm_num)]
  rw [h1, h2]
  intro heq
  rw [div_eq_div_iff (by positivity) (by norm_num)] at heq
  nlinarith [Real.pi_gt_3141592]

/-- C3 amended: the CPU bridge and the vertex shader implement the same
displacement formula — same wave sum, same shoaling weighting, same breaking
fold — except for the circle constant: with that constant abstracted, the
bridge is the shader formula at `c = 2π` (vertex y = 0), while the shipped
GLSL hard-codes `c = 6.28318`, so their outputs differ slightly. -/
theorem displacement_formulas_agree_up_to_circle_constant :
    (∀ x z t : ℝ, gerstnerDisplace x z t = Shader.gerstnerWavesC (2 * Real.pi) x 0 z t) ∧
    (∀ px py pz time : ℝ,
      Shader.gerstnerWaves px py pz time = Shader.gerstnerWavesC 6.28318 px py pz time) :=
  ⟨fun x z t => gerstner_eq_shaderC x z t, fun _ _ _ _ => rfl⟩
